import Mathlib

/-!
Shallow embedding of the sparse-set entity/component store.

The source keeps, per component kind `T`, a `SparseSet<T>` with
  * `sparse`  : an array of `MAX_ENTITIES` slots mapping an entity id to its
    dense index (or `INVALID_INDEX` when absent),
  * `dense`   : the dense entity array (allocated length `capacity`),
  * `data`    : the parallel dense value array,
  * `count`, `capacity`.
The backing `Array` container (the renderer header's generic array class,
whose constructor value-initializes every slot) is modelled by total functions
`Nat → _`; cells the program never wrote hold the default element, and the
bounds behavior of its `operator[]` is captured by `ArrayRead`.  Machine integers
(`uint32_t` entities, `int` counts) are modelled by `Nat`: every value the
program manipulates is non-negative and far below `2^32`, and the single
signed/unsigned comparison `index < count` in `Has` happens with `count ≥ 0`.
-/

def MAX_ENTITIES : Nat := 10000

def NULL_ENTITY : Nat := 0

def INVALID_INDEX : Nat := MAX_ENTITIES + 1

structure SparseSet (T : Type) where
  sparse : Nat → Nat
  dense : Nat → Nat
  data : Nat → T
  count : Nat
  capacity : Nat

namespace SparseSet

variable {T : Type}

/-- The `SparseSet` constructor: every sparse slot is set to `INVALID_INDEX`,
the dense arrays are empty (`count = capacity = 0`). -/
def init (T : Type) [Inhabited T] : SparseSet T :=
  { sparse := fun _ => INVALID_INDEX
    dense := fun _ => NULL_ENTITY
    data := fun _ => default
    count := 0
    capacity := 0 }

/-- `Grow`: allocate dense arrays of doubled capacity (64 on first growth) and
copy the first `count` entries across.  Fresh cells hold the default element,
matching the `Array(p_size)` constructor, which value-initializes every slot
(`m_array[i] = Datatype{}`). -/
def Grow [Inhabited T] (s : SparseSet T) : SparseSet T :=
  { s with
    dense := fun i => if i < s.count then s.dense i else NULL_ENTITY
    data := fun i => if i < s.count then s.data i else default
    capacity := if s.capacity = 0 then 64 else s.capacity * 2 }

/-- `Has(entity)`: `entity < MAX_ENTITIES` and `sparse[entity]` points at a
dense slot below `count` holding `entity` back. -/
def Has (s : SparseSet T) (entity : Nat) : Bool :=
  if MAX_ENTITIES ≤ entity then false
  else decide (s.sparse entity < s.count) && decide (s.dense (s.sparse entity) = entity)

/-- The "Grow if needed" step at the head of `Add`. -/
def growIfFull [Inhabited T] (s : SparseSet T) : SparseSet T :=
  if s.capacity ≤ s.count then s.Grow else s

/-- `Add(entity, component)`: reject `entity >= MAX_ENTITIES`; overwrite in
place when present; otherwise grow if full and append at index `count`. -/
def Add [Inhabited T] (s : SparseSet T) (entity : Nat) (component : T) : SparseSet T :=
  if MAX_ENTITIES ≤ entity then s
  else if s.Has entity then
    { s with data := Function.update s.data (s.sparse entity) component }
  else
    let s1 := s.growIfFull
    { s1 with
      sparse := Function.update s1.sparse entity s1.count
      dense := Function.update s1.dense s1.count entity
      data := Function.update s1.data s1.count component
      count := s1.count + 1 }

/-- `Remove(entity)`: no-op when absent; otherwise swap the last dense entry
into the removed slot (when distinct), invalidate `sparse[entity]`, decrement
`count`.  The two sparse writes happen in source order. -/
def Remove (s : SparseSet T) (entity : Nat) : SparseSet T :=
  if s.Has entity then
    let index := s.sparse entity
    let lastIndex := s.count - 1
    let s1 :=
      if index ≠ lastIndex then
        { s with
          dense := Function.update s.dense index (s.dense lastIndex)
          data := Function.update s.data index (s.data lastIndex)
          sparse := Function.update s.sparse (s.dense lastIndex) index }
      else s
    { s1 with
      sparse := Function.update s1.sparse entity INVALID_INDEX
      count := s.count - 1 }
  else s

/-- `Get(entity)`: the stored value, or absent (the source returns a null
pointer, modelled by `none`). -/
def Get (s : SparseSet T) (entity : Nat) : Option T :=
  if s.Has entity then some (s.data (s.sparse entity)) else none

def Count (s : SparseSet T) : Nat :=
  s.count

/-- The outcome of one `Array::operator[]` access (the `Array` class sits in
the renderer header).  An in-range index (`0 <= index < m_size`) returns the
element.  An out-of-range index is not handled defensively: the source logs
and fires `SDL_assert(false)` in debug builds and performs the raw
out-of-bounds read (undefined behavior) in release builds; both are modelled
as `fault`.  A negative `int` index, inexpressible over `Nat`, is the same
fault case. -/
inductive ArrayRead (α : Type) where
  | ok (a : α)
  | fault
deriving DecidableEq

/-- `GetData(index)` returns `data[index]` with no check of its own; the
bounds behavior is `Array::operator[]`'s.  The dense arrays are constructed
with `m_size = capacity` (the constructor and `Grow` both allocate
`Array(newCapacity)`), so the in-range bound is `capacity`. -/
def GetData (s : SparseSet T) (index : Nat) : ArrayRead T :=
  if index < s.capacity then .ok (s.data index) else .fault

/-- `GetEntity(index)` returns `dense[index]`, same bounds behavior as
`GetData`. -/
def GetEntity (s : SparseSet T) (index : Nat) : ArrayRead Nat :=
  if index < s.capacity then .ok (s.dense index) else .fault

/-- The sparse array after the `Clear` loop has run for indices `0..n-1`:
`sparse[dense[i]] = INVALID_INDEX` for each visited `i`. -/
def clearLoop (dense : Nat → Nat) (sparse : Nat → Nat) : Nat → Nat → Nat
  | 0 => sparse
  | n + 1 => Function.update (clearLoop dense sparse n) (dense n) INVALID_INDEX

/-- `Clear()`: invalidate the sparse slot of every dense entry, reset `count`
to 0; capacity and the dense cells themselves are retained. -/
def Clear (s : SparseSet T) : SparseSet T :=
  { s with sparse := clearLoop s.dense s.sparse s.count, count := 0 }

/-- One storage mutation, for stating reachability of states. -/
inductive Op (T : Type) where
  | add (entity : Nat) (component : T)
  | remove (entity : Nat)
  | clear

def applyOp [Inhabited T] (s : SparseSet T) : Op T → SparseSet T
  | .add e v => s.Add e v
  | .remove e => s.Remove e
  | .clear => s.Clear

def runOps [Inhabited T] (s : SparseSet T) (l : List (Op T)) : SparseSet T :=
  l.foldl applyOp s

/-- The spec's storage invariant, verbatim: every valid sparse slot points
below `count` and round-trips through `dense`; every dense slot below `count`
round-trips through `sparse`; `count ≤ capacity`. -/
def Inv (s : SparseSet T) : Prop :=
  (∀ e, e < MAX_ENTITIES → s.sparse e ≠ INVALID_INDEX →
    s.sparse e < s.count ∧ s.dense (s.sparse e) = e) ∧
  (∀ i, i < s.count → s.sparse (s.dense i) = i) ∧
  s.count ≤ s.capacity

/-- Strengthened invariant used in proofs: additionally `count ≤ MAX_ENTITIES`
and every dense entry below `count` is a storable entity id. -/
def WF (s : SparseSet T) : Prop :=
  s.Inv ∧ s.count ≤ MAX_ENTITIES ∧ ∀ i, i < s.count → s.dense i < MAX_ENTITIES

/-- The dense entity array read off in storage order, the iteration surface of
the query loops. -/
def denseList (s : SparseSet T) : List Nat :=
  (List.range s.count).map s.dense

end SparseSet

/-!
The query engine.  In the source, `World::Query<T1,...,Tn>` fetches the per-kind
storages by compile-time dispatch (`GetSparseSet<T>`) and then runs a join loop
over them; the loop is modelled here as a function of the storages, returning
the list of visitor invocations (entity plus the component values handed to the
visitor), in invocation order.  The loop reads `GetEntity(i)` and `GetData(i)`
at positions `i < Count()`, which are always in range (`count ≤ capacity`, the
dense arrays' size), so these reads are modelled by the dense-array fields
directly; `getEntity_eq` records the correspondence with `GetEntity`.
-/

/-- 2-arity query: drive the storage with the smaller `Count()` (ties toward
the first kind), probe the other with `Get`. -/
def query2 {T1 T2 : Type} (set1 : SparseSet T1) (set2 : SparseSet T2) :
    List (Nat × T1 × T2) :=
  if set1.Count ≤ set2.Count then
    (List.range set1.Count).filterMap fun i =>
      let entity := set1.dense i
      match set2.Get entity with
      | some comp2 => some (entity, set1.data i, comp2)
      | none => none
  else
    (List.range set2.Count).filterMap fun i =>
      let entity := set2.dense i
      match set1.Get entity with
      | some comp1 => some (entity, comp1, set2.data i)
      | none => none

/-- 3-arity query: iterate `T1`'s dense array, probe `T2` then `T3`. -/
def query3 {T1 T2 T3 : Type} (set1 : SparseSet T1) (set2 : SparseSet T2)
    (set3 : SparseSet T3) : List (Nat × T1 × T2 × T3) :=
  (List.range set1.Count).filterMap fun i =>
    let entity := set1.dense i
    match set2.Get entity, set3.Get entity with
    | some comp2, some comp3 => some (entity, set1.data i, comp2, comp3)
    | _, _ => none

/-- 4-arity query. -/
def query4 {T1 T2 T3 T4 : Type} (set1 : SparseSet T1) (set2 : SparseSet T2)
    (set3 : SparseSet T3) (set4 : SparseSet T4) : List (Nat × T1 × T2 × T3 × T4) :=
  (List.range set1.Count).filterMap fun i =>
    let entity := set1.dense i
    match set2.Get entity, set3.Get entity, set4.Get entity with
    | some comp2, some comp3, some comp4 =>
        some (entity, set1.data i, comp2, comp3, comp4)
    | _, _, _ => none

/-- 5-arity query. -/
def query5 {T1 T2 T3 T4 T5 : Type} (set1 : SparseSet T1) (set2 : SparseSet T2)
    (set3 : SparseSet T3) (set4 : SparseSet T4) (set5 : SparseSet T5) :
    List (Nat × T1 × T2 × T3 × T4 × T5) :=
  (List.range set1.Count).filterMap fun i =>
    let entity := set1.dense i
    match set2.Get entity, set3.Get entity, set4.Get entity, set5.Get entity with
    | some comp2, some comp3, some comp4, some comp5 =>
        some (entity, set1.data i, comp2, comp3, comp4, comp5)
    | _, _, _, _ => none

/-- 6-arity query. -/
def query6 {T1 T2 T3 T4 T5 T6 : Type} (set1 : SparseSet T1) (set2 : SparseSet T2)
    (set3 : SparseSet T3) (set4 : SparseSet T4) (set5 : SparseSet T5)
    (set6 : SparseSet T6) : List (Nat × T1 × T2 × T3 × T4 × T5 × T6) :=
  (List.range set1.Count).filterMap fun i =>
    let entity := set1.dense i
    match set2.Get entity, set3.Get entity, set4.Get entity, set5.Get entity,
        set6.Get entity with
    | some comp2, some comp3, some comp4, some comp5, some comp6 =>
        some (entity, set1.data i, comp2, comp3, comp4, comp5, comp6)
    | _, _, _, _, _ => none

/-!
The registry (`World`).  The source fixes seven component kinds (Transform,
Sprite, Animation, Physics, Collider, CollisionState, Player); the store is
agnostic to their contents, so they stay type parameters here.
-/

structure World (Tr Sp An Ph Co Cs Pl : Type) where
  nextEntity : Nat
  transforms : SparseSet Tr
  sprites : SparseSet Sp
  animations : SparseSet An
  physics : SparseSet Ph
  colliders : SparseSet Co
  collisionStates : SparseSet Cs
  players : SparseSet Pl

namespace World

variable {Tr Sp An Ph Co Cs Pl : Type}

/-- The `World` constructor: counter at 1, every storage freshly constructed. -/
def init (Tr Sp An Ph Co Cs Pl : Type) [Inhabited Tr] [Inhabited Sp] [Inhabited An]
    [Inhabited Ph] [Inhabited Co] [Inhabited Cs] [Inhabited Pl] :
    World Tr Sp An Ph Co Cs Pl :=
  { nextEntity := 1
    transforms := SparseSet.init Tr
    sprites := SparseSet.init Sp
    animations := SparseSet.init An
    physics := SparseSet.init Ph
    colliders := SparseSet.init Co
    collisionStates := SparseSet.init Cs
    players := SparseSet.init Pl }

/-- `CreateEntity()`: return `NULL_ENTITY` once the counter reaches
`MAX_ENTITIES`, else return the counter and post-increment it.  The mutation
of the member is modelled by returning the updated world. -/
def CreateEntity (w : World Tr Sp An Ph Co Cs Pl) : Nat × World Tr Sp An Ph Co Cs Pl :=
  if MAX_ENTITIES ≤ w.nextEntity then (NULL_ENTITY, w)
  else (w.nextEntity, { w with nextEntity := w.nextEntity + 1 })

/-- `DestroyEntity(entity)`: call `Remove` on every storage unconditionally. -/
def DestroyEntity (w : World Tr Sp An Ph Co Cs Pl) (entity : Nat) :
    World Tr Sp An Ph Co Cs Pl :=
  { w with
    transforms := w.transforms.Remove entity
    sprites := w.sprites.Remove entity
    animations := w.animations.Remove entity
    physics := w.physics.Remove entity
    colliders := w.colliders.Remove entity
    collisionStates := w.collisionStates.Remove entity
    players := w.players.Remove entity }

def HasTransform (w : World Tr Sp An Ph Co Cs Pl) (entity : Nat) : Bool :=
  w.transforms.Has entity

def HasSprite (w : World Tr Sp An Ph Co Cs Pl) (entity : Nat) : Bool :=
  w.sprites.Has entity

def HasAnimation (w : World Tr Sp An Ph Co Cs Pl) (entity : Nat) : Bool :=
  w.animations.Has entity

def HasPhysics (w : World Tr Sp An Ph Co Cs Pl) (entity : Nat) : Bool :=
  w.physics.Has entity

def HasCollider (w : World Tr Sp An Ph Co Cs Pl) (entity : Nat) : Bool :=
  w.colliders.Has entity

def HasCollisionState (w : World Tr Sp An Ph Co Cs Pl) (entity : Nat) : Bool :=
  w.collisionStates.Has entity

def HasPlayer (w : World Tr Sp An Ph Co Cs Pl) (entity : Nat) : Bool :=
  w.players.Has entity

/-- The results of `n` successive `CreateEntity()` calls, first call first. -/
def createRun (w : World Tr Sp An Ph Co Cs Pl) : Nat → List Nat
  | 0 => []
  | n + 1 => (w.CreateEntity).1 :: createRun (w.CreateEntity).2 n

/-- The world after `n` successive `CreateEntity()` calls. -/
def createIter (w : World Tr Sp An Ph Co Cs Pl) : Nat → World Tr Sp An Ph Co Cs Pl
  | 0 => w
  | n + 1 => ((createIter w n).CreateEntity).2

end World

/-! Small concrete stores, used to instantiate the verified properties. -/

def demoA : SparseSet Nat :=
  ((SparseSet.init Nat).Add 1 10).Add 2 20

def demoB : SparseSet Nat :=
  (((SparseSet.init Nat).Add 2 21).Add 3 31).Add 4 41

def demoC : SparseSet Nat :=
  (SparseSet.init Nat).Add 2 22

def demoWorld : World Nat Nat Nat Nat Nat Nat Nat :=
  { World.init Nat Nat Nat Nat Nat Nat Nat with transforms := demoA }

/-! ### Basic facts about the storage operations -/

namespace SparseSet

variable {T : Type}

theorem has_iff (s : SparseSet T) (e : Nat) :
    s.Has e = true ↔
      e < MAX_ENTITIES ∧ s.sparse e < s.count ∧ s.dense (s.sparse e) = e := by
  unfold Has
  by_cases h : MAX_ENTITIES ≤ e
  · simp only [if_pos h]
    constructor
    · intro hf
      exact absurd hf (by simp)
    · rintro ⟨h1, -⟩
      omega
  · simp only [if_neg h, Bool.and_eq_true, decide_eq_true_eq]
    constructor
    · rintro ⟨h1, h2⟩
      exact ⟨by omega, h1, h2⟩
    · rintro ⟨-, h1, h2⟩
      exact ⟨h1, h2⟩

theorem has_eq_false_iff (s : SparseSet T) (e : Nat) :
    s.Has e = false ↔
      ¬(e < MAX_ENTITIES ∧ s.sparse e < s.count ∧ s.dense (s.sparse e) = e) := by
  rw [← has_iff]
  cases s.Has e <;> simp

theorem has_of_ge {s : SparseSet T} {e : Nat} (h : MAX_ENTITIES ≤ e) :
    s.Has e = false := by
  rw [has_eq_false_iff]
  rintro ⟨h1, -⟩
  omega

theorem get_of_has {s : SparseSet T} {e : Nat} (h : s.Has e = true) :
    s.Get e = some (s.data (s.sparse e)) := by
  simp [Get, h]

theorem get_of_not_has {s : SparseSet T} {e : Nat} (h : s.Has e = false) :
    s.Get e = none := by
  simp [Get, h]

theorem get_isSome (s : SparseSet T) (e : Nat) :
    (s.Get e).isSome = s.Has e := by
  cases h : s.Has e
  · rw [get_of_not_has h]
    rfl
  · rw [get_of_has h]
    rfl

theorem growIfFull_sparse [Inhabited T] (s : SparseSet T) :
    s.growIfFull.sparse = s.sparse := by
  unfold growIfFull Grow
  split <;> rfl

theorem growIfFull_count [Inhabited T] (s : SparseSet T) :
    s.growIfFull.count = s.count := by
  unfold growIfFull Grow
  split <;> rfl

theorem growIfFull_dense [Inhabited T] {s : SparseSet T} {i : Nat} (h : i < s.count) :
    s.growIfFull.dense i = s.dense i := by
  unfold growIfFull Grow
  split
  · simp [h]
  · rfl

theorem growIfFull_data [Inhabited T] {s : SparseSet T} {i : Nat} (h : i < s.count) :
    s.growIfFull.data i = s.data i := by
  unfold growIfFull Grow
  split
  · simp [h]
  · rfl

theorem growIfFull_capacity [Inhabited T] {s : SparseSet T} (h : s.count ≤ s.capacity) :
    s.count < s.growIfFull.capacity := by
  unfold growIfFull Grow
  split
  · by_cases h0 : s.capacity = 0 <;> simp [h0] <;> omega
  · omega

theorem Add_of_ge [Inhabited T] (s : SparseSet T) (e : Nat) (v : T)
    (h : MAX_ENTITIES ≤ e) : s.Add e v = s := by
  unfold Add
  rw [if_pos h]

theorem Add_overwrite [Inhabited T] (s : SparseSet T) {e : Nat} (v : T)
    (h : s.Has e = true) :
    s.Add e v = { s with data := Function.update s.data (s.sparse e) v } := by
  have he : ¬ MAX_ENTITIES ≤ e := by
    have := ((has_iff s e).mp h).1
    omega
  unfold Add
  rw [if_neg he, if_pos h]

theorem Add_fresh [Inhabited T] (s : SparseSet T) {e : Nat} (v : T)
    (he : e < MAX_ENTITIES) (h : s.Has e = false) :
    s.Add e v =
      { sparse := Function.update s.growIfFull.sparse e s.growIfFull.count
        dense := Function.update s.growIfFull.dense s.growIfFull.count e
        data := Function.update s.growIfFull.data s.growIfFull.count v
        count := s.growIfFull.count + 1
        capacity := s.growIfFull.capacity } := by
  have he2 : ¬ MAX_ENTITIES ≤ e := by omega
  unfold Add
  rw [if_neg he2, if_neg (by simp [h])]

theorem Remove_of_not_has {s : SparseSet T} {e : Nat} (h : s.Has e = false) :
    s.Remove e = s := by
  unfold Remove
  rw [if_neg (by simp [h])]

theorem Remove_swap {s : SparseSet T} {e : Nat} (h : s.Has e = true)
    (hne : s.sparse e ≠ s.count - 1) :
    s.Remove e =
      { s with
        dense := Function.update s.dense (s.sparse e) (s.dense (s.count - 1))
        data := Function.update s.data (s.sparse e) (s.data (s.count - 1))
        sparse := Function.update
          (Function.update s.sparse (s.dense (s.count - 1)) (s.sparse e)) e INVALID_INDEX
        count := s.count - 1 } := by
  unfold Remove
  rw [if_pos h]
  simp only [if_pos hne]

theorem Remove_last {s : SparseSet T} {e : Nat} (h : s.Has e = true)
    (heq : s.sparse e = s.count - 1) :
    s.Remove e =
      { s with
        sparse := Function.update s.sparse e INVALID_INDEX
        count := s.count - 1 } := by
  unfold Remove
  rw [if_pos h]
  simp only [heq, ne_eq, not_true_eq_false, if_neg, ite_false]

end SparseSet

/-! ### The storage invariant is preserved by every operation -/

namespace SparseSet

variable {T : Type}

theorem bool_eq_false {b : Bool} (h : ¬ b = true) : b = false := by
  cases b
  · rfl
  · exact absurd rfl h

theorem clearLoop_eq (d : Nat → Nat) (sp : Nat → Nat) (n : Nat) (e : Nat) :
    clearLoop d sp n e = if ∃ i, i < n ∧ d i = e then INVALID_INDEX else sp e := by
  induction n with
  | zero => simp [clearLoop]
  | succ n ih =>
    unfold clearLoop
    by_cases h : d n = e
    · rw [h, Function.update_same]
      rw [if_pos ⟨n, Nat.lt_succ_self n, h⟩]
    · rw [Function.update_noteq (fun he => h he.symm), ih]
      by_cases h2 : ∃ i, i < n ∧ d i = e
      · obtain ⟨i, hi, hd⟩ := h2
        rw [if_pos ⟨i, hi, hd⟩, if_pos ⟨i, Nat.lt_succ_of_lt hi, hd⟩]
      · rw [if_neg h2, if_neg ?_]
        rintro ⟨i, hi, hd⟩
        rcases Nat.lt_succ_iff_lt_or_eq.mp hi with h3 | h3
        · exact h2 ⟨i, h3, hd⟩
        · exact h (h3 ▸ hd)

/-- An absent entity cannot sit in the live part of the dense array. -/
theorem dense_ne_of_not_has {s : SparseSet T}
    (inv2 : ∀ i, i < s.count → s.sparse (s.dense i) = i)
    {e : Nat} (he : e < MAX_ENTITIES) (hne : s.Has e = false) :
    ∀ i, i < s.count → s.dense i ≠ e := by
  intro i hi hde
  have h1 := inv2 i hi
  rw [hde] at h1
  rw [has_eq_false_iff] at hne
  exact hne ⟨he, by rw [h1]; exact hi, by rw [h1, hde]⟩

/-- A storage holding some absent storable entity has fewer than
`MAX_ENTITIES` members: the live dense entries are distinct entity ids below
`MAX_ENTITIES` avoiding `e`. -/
theorem count_lt_max {s : SparseSet T} (hs : s.WF) {e : Nat} (he : e < MAX_ENTITIES)
    (hne : s.Has e = false) : s.count < MAX_ENTITIES := by
  obtain ⟨⟨inv1, inv2, inv3⟩, hcnt, hdlt⟩ := hs
  have hdne := dense_ne_of_not_has inv2 he hne
  have hmaps : ∀ a ∈ Finset.range s.count, s.dense a ∈ (Finset.range MAX_ENTITIES).erase e := by
    intro a ha
    rw [Finset.mem_range] at ha
    exact Finset.mem_erase.mpr ⟨hdne a ha, Finset.mem_range.mpr (hdlt a ha)⟩
  have hinj : Set.InjOn s.dense (Finset.range s.count) := by
    intro i hi j hj hij
    rw [Finset.coe_range, Set.mem_Iio] at hi hj
    rw [← inv2 i hi, ← inv2 j hj, hij]
  have hcard := Finset.card_le_card_of_injOn s.dense hmaps hinj
  rw [Finset.card_range, Finset.card_erase_of_mem (Finset.mem_range.mpr he),
    Finset.card_range] at hcard
  omega

theorem wf_init [Inhabited T] : (init T).WF := by
  refine ⟨⟨?_, ?_, ?_⟩, ?_, ?_⟩
  · intro e he hne
    exact absurd rfl hne
  · intro i hi
    exact absurd hi (Nat.not_lt_zero i)
  · exact Nat.le_refl 0
  · exact Nat.zero_le _
  · intro i hi
    exact absurd hi (Nat.not_lt_zero i)

theorem wf_add [Inhabited T] {s : SparseSet T} (hs : s.WF) (e : Nat) (v : T) :
    (s.Add e v).WF := by
  by_cases hge : MAX_ENTITIES ≤ e
  · rw [Add_of_ge s e v hge]
    exact hs
  have he : e < MAX_ENTITIES := by omega
  obtain ⟨⟨inv1, inv2, inv3⟩, hcnt, hdlt⟩ := hs
  by_cases hh : s.Has e = true
  · rw [Add_overwrite s v hh]
    exact ⟨⟨inv1, inv2, inv3⟩, hcnt, hdlt⟩
  · have hh2 : s.Has e = false := bool_eq_false hh
    have hcltmax : s.count < MAX_ENTITIES :=
      count_lt_max ⟨⟨inv1, inv2, inv3⟩, hcnt, hdlt⟩ he hh2
    rw [Add_fresh s v he hh2]
    rw [growIfFull_count, growIfFull_sparse]
    have hcap : s.count < s.growIfFull.capacity := growIfFull_capacity inv3
    have hdne := dense_ne_of_not_has inv2 he hh2
    refine ⟨⟨?_, ?_, ?_⟩, ?_, ?_⟩
    · intro e2 he2 hne2
      dsimp only at hne2 ⊢
      by_cases hee : e2 = e
      · subst hee
        rw [Function.update_same] at hne2 ⊢
        exact ⟨Nat.lt_succ_self _, by rw [Function.update_same]⟩
      · rw [Function.update_noteq hee] at hne2 ⊢
        obtain ⟨h1, h2⟩ := inv1 e2 he2 hne2
        refine ⟨Nat.lt_succ_of_lt h1, ?_⟩
        rw [Function.update_noteq (Nat.ne_of_lt h1), growIfFull_dense h1]
        exact h2
    · intro i hi
      dsimp only at hi ⊢
      rcases Nat.lt_succ_iff_lt_or_eq.mp hi with h3 | h3
      · rw [Function.update_noteq (Nat.ne_of_lt h3), growIfFull_dense h3,
          Function.update_noteq (hdne i h3)]
        exact inv2 i h3
      · subst h3
        rw [Function.update_same, Function.update_same]
    · exact hcap
    · exact hcltmax
    · intro i hi
      dsimp only at hi ⊢
      rcases Nat.lt_succ_iff_lt_or_eq.mp hi with h3 | h3
      · rw [Function.update_noteq (Nat.ne_of_lt h3), growIfFull_dense h3]
        exact hdlt i h3
      · subst h3
        rw [Function.update_same]
        exact he

theorem wf_remove {s : SparseSet T} (hs : s.WF) (e : Nat) : (s.Remove e).WF := by
  obtain ⟨⟨inv1, inv2, inv3⟩, hcnt, hdlt⟩ := hs
  by_cases hh : s.Has e = true
  case neg =>
    rw [Remove_of_not_has (bool_eq_false hh)]
    exact ⟨⟨inv1, inv2, inv3⟩, hcnt, hdlt⟩
  case pos =>
  obtain ⟨he, hidx, hde⟩ := (has_iff s e).mp hh
  by_cases heq : s.sparse e = s.count - 1
  · rw [Remove_last hh heq]
    refine ⟨⟨?_, ?_, ?_⟩, ?_, ?_⟩
    · intro e2 he2 hne2
      dsimp only at hne2 ⊢
      by_cases hee : e2 = e
      · subst hee
        rw [Function.update_same] at hne2
        exact absurd rfl hne2
      · rw [Function.update_noteq hee] at hne2 ⊢
        obtain ⟨h1, h2⟩ := inv1 e2 he2 hne2
        have hne3 : s.sparse e2 ≠ s.count - 1 := by
          intro hx
          exact hee (by rw [← h2, hx, ← heq, hde])
        exact ⟨by omega, h2⟩
    · intro i hi
      dsimp only at hi ⊢
      have hi2 : i < s.count := by omega
      have hdie : s.dense i ≠ e := by
        intro hx
        have h4 := inv2 i hi2
        rw [hx] at h4
        omega
      rw [Function.update_noteq hdie]
      exact inv2 i hi2
    · dsimp only
      omega
    · dsimp only
      omega
    · intro i hi
      dsimp only at hi ⊢
      exact hdlt i (by omega)
  · have hlast_lt : s.count - 1 < s.count := by omega
    have hsplastE : s.sparse (s.dense (s.count - 1)) = s.count - 1 := inv2 _ hlast_lt
    have hlastE_ne : s.dense (s.count - 1) ≠ e := by
      intro hx
      rw [hx] at hsplastE
      exact heq hsplastE
    rw [Remove_swap hh heq]
    refine ⟨⟨?_, ?_, ?_⟩, ?_, ?_⟩
    · intro e2 he2 hne2
      dsimp only at hne2 ⊢
      by_cases hee : e2 = e
      · subst hee
        rw [Function.update_same] at hne2
        exact absurd rfl hne2
      · by_cases helast : e2 = s.dense (s.count - 1)
        · subst helast
          rw [Function.update_noteq hlastE_ne, Function.update_same] at hne2 ⊢
          refine ⟨by omega, ?_⟩
          rw [Function.update_same]
        · rw [Function.update_noteq hee, Function.update_noteq helast] at hne2 ⊢
          obtain ⟨h1, h2⟩ := inv1 e2 he2 hne2
          have hne3 : s.sparse e2 ≠ s.count - 1 := by
            intro hx
            exact helast (by rw [← h2, hx])
          have hne4 : s.sparse e2 ≠ s.sparse e := by
            intro hx
            exact hee (by rw [← h2, hx, hde])
          refine ⟨by omega, ?_⟩
          rw [Function.update_noteq hne4]
          exact h2
    · intro i hi
      dsimp only at hi ⊢
      have hi2 : i < s.count := by omega
      by_cases hiidx : i = s.sparse e
      · subst hiidx
        rw [Function.update_same, Function.update_noteq hlastE_ne, Function.update_same]
      · have hdie : s.dense i ≠ e := by
          intro hx
          have h4 := inv2 i hi2
          rw [hx] at h4
          exact hiidx h4.symm
        have hdilast : s.dense i ≠ s.dense (s.count - 1) := by
          intro hx
          have h4 := inv2 i hi2
          rw [hx, hsplastE] at h4
          omega
        rw [Function.update_noteq (fun hx => hiidx hx)]
        rw [Function.update_noteq hdie, Function.update_noteq hdilast]
        exact inv2 i hi2
    · dsimp only
      omega
    · dsimp only
      omega
    · intro i hi
      dsimp only at hi ⊢
      by_cases hiidx : i = s.sparse e
      · subst hiidx
        rw [Function.update_same]
        exact hdlt _ hlast_lt
      · rw [Function.update_noteq (fun hx => hiidx hx)]
        exact hdlt i (by omega)

theorem wf_clear {s : SparseSet T} (hs : s.WF) : s.Clear.WF := by
  obtain ⟨⟨inv1, inv2, inv3⟩, hcnt, hdlt⟩ := hs
  refine ⟨⟨?_, ?_, ?_⟩, ?_, ?_⟩
  · intro e2 he2 hne2
    dsimp only [Clear] at hne2 ⊢
    rw [clearLoop_eq] at hne2
    by_cases hex : ∃ i, i < s.count ∧ s.dense i = e2
    · rw [if_pos hex] at hne2
      exact absurd rfl hne2
    · rw [if_neg hex] at hne2
      obtain ⟨h1, h2⟩ := inv1 e2 he2 hne2
      exact absurd ⟨s.sparse e2, h1, h2⟩ hex
  · intro i hi
    exact absurd hi (Nat.not_lt_zero i)
  · exact Nat.zero_le _
  · exact Nat.zero_le _
  · intro i hi
    exact absurd hi (Nat.not_lt_zero i)

theorem wf_applyOp [Inhabited T] {s : SparseSet T} (hs : s.WF) (op : Op T) :
    (s.applyOp op).WF := by
  cases op with
  | add e v => exact wf_add hs e v
  | remove e => exact wf_remove hs e
  | clear => exact wf_clear hs

theorem wf_runOps [Inhabited T] {s : SparseSet T} (hs : s.WF) (l : List (Op T)) :
    (s.runOps l).WF := by
  induction l generalizing s with
  | nil => exact hs
  | cons op l ih => exact ih (wf_applyOp hs op)

end SparseSet

/-! ### Roundtrip and frame facts for Add and Remove -/

namespace SparseSet

variable {T : Type}

/-- After `Add(e, v)` with a storable id, `e` is present and holds `v`. -/
theorem add_roundtrip [Inhabited T] (s : SparseSet T) {e : Nat} (v : T)
    (he : e < MAX_ENTITIES) :
    (s.Add e v).Has e = true ∧ (s.Add e v).Get e = some v := by
  by_cases hh : s.Has e = true
  · have hh2 : (s.Add e v).Has e = true := by
      rw [Add_overwrite s v hh]
      exact hh
    refine ⟨hh2, ?_⟩
    rw [get_of_has hh2, Add_overwrite s v hh]
    dsimp only
    rw [Function.update_same]
  · have hh2 := bool_eq_false hh
    have hhas : (s.Add e v).Has e = true := by
      rw [Add_fresh s v he hh2, has_iff]
      dsimp only
      rw [Function.update_same]
      exact ⟨he, Nat.lt_succ_self _, by rw [Function.update_same]⟩
    refine ⟨hhas, ?_⟩
    rw [get_of_has hhas, Add_fresh s v he hh2]
    dsimp only
    rw [Function.update_same, Function.update_same]

/-- `Add(e, v)` neither changes the membership nor the stored value of any
other entity. -/
theorem add_frame [Inhabited T] (s : SparseSet T) (e : Nat) (v : T)
    {e2 : Nat} (hne : e2 ≠ e) :
    (s.Add e v).Has e2 = s.Has e2 ∧ (s.Add e v).Get e2 = s.Get e2 := by
  by_cases hge : MAX_ENTITIES ≤ e
  · rw [Add_of_ge s e v hge]
    exact ⟨rfl, rfl⟩
  have he : e < MAX_ENTITIES := by omega
  by_cases hh : s.Has e = true
  · have hhas : (s.Add e v).Has e2 = s.Has e2 := by
      rw [Add_overwrite s v hh]
      rfl
    refine ⟨hhas, ?_⟩
    by_cases hh2 : s.Has e2 = true
    · have hspne : s.sparse e2 ≠ s.sparse e := by
        intro hx
        obtain ⟨-, -, h3⟩ := (has_iff s e).mp hh
        obtain ⟨-, -, h4⟩ := (has_iff s e2).mp hh2
        rw [hx, h3] at h4
        exact hne h4.symm
      rw [get_of_has (hhas.trans hh2), get_of_has hh2, Add_overwrite s v hh]
      dsimp only
      rw [Function.update_noteq hspne]
    · have hf := bool_eq_false hh2
      rw [get_of_not_has (hhas.trans hf), get_of_not_has hf]
  · have hh2 := bool_eq_false hh
    have hfr := Add_fresh s v he hh2
    have hsp2 : (s.Add e v).sparse e2 = s.sparse e2 := by
      rw [hfr]
      dsimp only
      rw [Function.update_noteq hne, growIfFull_sparse]
    have hcnt : (s.Add e v).count = s.count + 1 := by
      rw [hfr]
      dsimp only
      rw [growIfFull_count]
    have hdense : ∀ j, j < s.count → (s.Add e v).dense j = s.dense j := by
      intro j hj
      rw [hfr]
      dsimp only
      rw [growIfFull_count, Function.update_noteq (Nat.ne_of_lt hj), growIfFull_dense hj]
    have hdata : ∀ j, j < s.count → (s.Add e v).data j = s.data j := by
      intro j hj
      rw [hfr]
      dsimp only
      rw [growIfFull_count, Function.update_noteq (Nat.ne_of_lt hj), growIfFull_data hj]
    have hdense_at : (s.Add e v).dense s.count = e := by
      rw [hfr]
      dsimp only
      rw [growIfFull_count, Function.update_same]
    have hhas : (s.Add e v).Has e2 = s.Has e2 := by
      by_cases hge2 : MAX_ENTITIES ≤ e2
      · rw [has_of_ge hge2, has_of_ge hge2]
      · have he2 : e2 < MAX_ENTITIES := by omega
        by_cases hh3 : s.Has e2 = true
        · obtain ⟨h1, h2, h3⟩ := (has_iff s e2).mp hh3
          rw [hh3, has_iff]
          exact ⟨h1, by rw [hsp2, hcnt]; omega, by rw [hsp2, hdense _ h2]; exact h3⟩
        · have hh4 := bool_eq_false hh3
          rw [hh4, has_eq_false_iff]
          rintro ⟨h1, h2, h3⟩
          rw [hsp2] at h2 h3
          rw [hcnt] at h2
          rw [has_eq_false_iff] at hh4
          rcases Nat.lt_succ_iff_lt_or_eq.mp h2 with h4 | h4
          · rw [hdense _ h4] at h3
            exact hh4 ⟨h1, h4, h3⟩
          · rw [h4, hdense_at] at h3
            exact hne h3.symm
    refine ⟨hhas, ?_⟩
    by_cases hh3 : s.Has e2 = true
    · obtain ⟨-, h2, -⟩ := (has_iff s e2).mp hh3
      rw [get_of_has (hhas.trans hh3), get_of_has hh3, hsp2, hdata _ h2]
    · have hf := bool_eq_false hh3
      rw [get_of_not_has (hhas.trans hf), get_of_not_has hf]

/-- After `Remove(e)` the entity is gone, provided the storage never held more
than `MAX_ENTITIES` members (always true of reachable states). -/
theorem remove_self {s : SparseSet T} (hcnt : s.count ≤ MAX_ENTITIES) (e : Nat) :
    (s.Remove e).Has e = false := by
  by_cases hh : s.Has e = true
  case neg =>
    rw [Remove_of_not_has (bool_eq_false hh)]
    exact bool_eq_false hh
  case pos =>
  obtain ⟨he, hidx, -⟩ := (has_iff s e).mp hh
  have hsp : (s.Remove e).sparse e = INVALID_INDEX := by
    by_cases heq : s.sparse e = s.count - 1
    · rw [Remove_last hh heq]
      dsimp only
      rw [Function.update_same]
    · rw [Remove_swap hh heq]
      dsimp only
      rw [Function.update_same]
  have hcnt2 : (s.Remove e).count = s.count - 1 := by
    by_cases heq : s.sparse e = s.count - 1
    · rw [Remove_last hh heq]
    · rw [Remove_swap hh heq]
  rw [has_eq_false_iff]
  rintro ⟨-, h2, -⟩
  rw [hsp, hcnt2] at h2
  have hI : INVALID_INDEX = MAX_ENTITIES + 1 := rfl
  omega

/-- `Remove(e)` keeps every other present entity present, with its value. -/
theorem remove_frame {s : SparseSet T} (hs : s.WF) (e : Nat)
    {e2 : Nat} (hne : e2 ≠ e) (hh2 : s.Has e2 = true) :
    (s.Remove e).Has e2 = true ∧ (s.Remove e).Get e2 = s.Get e2 := by
  obtain ⟨⟨inv1, inv2, inv3⟩, hcnt, hdlt⟩ := hs
  by_cases hh : s.Has e = true
  case neg =>
    rw [Remove_of_not_has (bool_eq_false hh)]
    exact ⟨hh2, rfl⟩
  case pos =>
  obtain ⟨he, hidx, hde⟩ := (has_iff s e).mp hh
  obtain ⟨h1, h2, h3⟩ := (has_iff s e2).mp hh2
  have hspne : s.sparse e2 ≠ s.sparse e := by
    intro hx
    rw [hx, hde] at h3
    exact hne h3.symm
  by_cases heq : s.sparse e = s.count - 1
  · have hne3 : s.sparse e2 ≠ s.count - 1 := by
      rw [← heq]
      exact hspne
    have hhas : (s.Remove e).Has e2 = true := by
      rw [Remove_last hh heq, has_iff]
      dsimp only
      rw [Function.update_noteq hne]
      exact ⟨h1, by omega, h3⟩
    refine ⟨hhas, ?_⟩
    rw [get_of_has hhas, get_of_has hh2, Remove_last hh heq]
    dsimp only
    rw [Function.update_noteq hne]
  · have hlast_lt : s.count - 1 < s.count := by omega
    have hsplastE : s.sparse (s.dense (s.count - 1)) = s.count - 1 := inv2 _ hlast_lt
    have hlastE_ne : s.dense (s.count - 1) ≠ e := by
      intro hx
      rw [hx] at hsplastE
      exact heq hsplastE
    by_cases helast : e2 = s.dense (s.count - 1)
    · have hsp : (s.Remove e).sparse e2 = s.sparse e := by
        rw [Remove_swap hh heq]
        dsimp only
        rw [helast, Function.update_noteq hlastE_ne, Function.update_same]
      have hhas : (s.Remove e).Has e2 = true := by
        rw [has_iff, hsp]
        constructor
        · exact h1
        constructor
        · rw [Remove_swap hh heq]
          dsimp only
          omega
        · rw [Remove_swap hh heq]
          dsimp only
          rw [Function.update_same, helast]
      refine ⟨hhas, ?_⟩
      rw [get_of_has hhas, get_of_has hh2, hsp, Remove_swap hh heq]
      dsimp only
      rw [Function.update_same]
      rw [helast, hsplastE]
    · have hne4 : s.sparse e2 ≠ s.count - 1 := by
        intro hx
        exact helast (by rw [← h3, hx])
      have hsp : (s.Remove e).sparse e2 = s.sparse e2 := by
        rw [Remove_swap hh heq]
        dsimp only
        rw [Function.update_noteq hne, Function.update_noteq helast]
      have hhas : (s.Remove e).Has e2 = true := by
        rw [has_iff, hsp]
        refine ⟨h1, ?_, ?_⟩
        · rw [Remove_swap hh heq]
          dsimp only
          omega
        · rw [Remove_swap hh heq]
          dsimp only
          rw [Function.update_noteq hspne]
          exact h3
      refine ⟨hhas, ?_⟩
      rw [get_of_has hhas, get_of_has hh2, hsp, Remove_swap hh heq]
      dsimp only
      rw [Function.update_noteq hspne]

end SparseSet

/-! ### The dense iteration surface and the join loops -/

namespace SparseSet

variable {T : Type}

theorem nodup_denseList {s : SparseSet T} (hs : s.Inv) : s.denseList.Nodup := by
  refine List.Nodup.map_on ?_ (List.nodup_range s.count)
  intro i hi j hj hij
  rw [List.mem_range] at hi hj
  rw [← hs.2.1 i hi, ← hs.2.1 j hj, hij]

theorem mem_denseList {s : SparseSet T} (hs : s.WF) (e : Nat) :
    e ∈ s.denseList ↔ s.Has e = true := by
  unfold denseList
  rw [List.mem_map]
  constructor
  · rintro ⟨i, hi, rfl⟩
    rw [List.mem_range] at hi
    rw [has_iff]
    refine ⟨hs.2.2 i hi, ?_, ?_⟩
    · rw [hs.1.2.1 i hi]
      exact hi
    · rw [hs.1.2.1 i hi]
  · intro h
    obtain ⟨-, h1, h2⟩ := (has_iff s e).mp h
    exact ⟨s.sparse e, List.mem_range.mpr h1, h2⟩

theorem count_filter_denseList {s : SparseSet T} (hs : s.WF)
    (p : Nat → Bool) (e : Nat) :
    List.count e (s.denseList.filter p) = if s.Has e = true ∧ p e = true then 1 else 0 := by
  by_cases hmem : e ∈ s.denseList.filter p
  · rw [if_pos ⟨(mem_denseList hs e).mp (List.mem_of_mem_filter hmem),
      List.of_mem_filter hmem⟩]
    exact List.count_eq_one_of_mem ((nodup_denseList hs.1).filter p) hmem
  · rw [List.count_eq_zero_of_not_mem hmem, if_neg]
    rintro ⟨h1, h2⟩
    exact hmem (List.mem_filter.mpr ⟨(mem_denseList hs e).mpr h1, h2⟩)

/-- Positions below `count` are in range for the dense arrays (whose size is
`capacity`), so `GetEntity` is the plain dense-array read there: the query
loops only ever exercise this branch of `Array::operator[]`. -/
theorem getEntity_eq {s : SparseSet T} (hs : s.WF) {i : Nat} (hi : i < s.Count) :
    s.GetEntity i = ArrayRead.ok (s.dense i) := by
  unfold GetEntity
  rw [if_pos (lt_of_lt_of_le hi hs.1.2.2)]

end SparseSet

/-- The shape shared by every query loop: mapping each visited tuple to its
entity turns the loop's `filterMap` into a filter of the driving dense list. -/
theorem map_fst_filterMap {β : Type} (l : List Nat) (d : Nat → Nat) (p : Nat → Bool)
    (F : Nat → Option β) (g : β → Nat)
    (h : ∀ i ∈ l, (∀ b, F i = some b → g b = d i) ∧ ((F i).isSome = p (d i))) :
    (l.filterMap F).map g = (l.map d).filter p := by
  induction l with
  | nil => rfl
  | cons a l ih =>
    have ha := h a (List.mem_cons_self a l)
    have hrest := ih (fun i hi => h i (List.mem_cons_of_mem a hi))
    rw [List.map_cons]
    cases hF : F a with
    | none =>
      have hp : p (d a) = false := by
        rw [← ha.2, hF]
        rfl
      rw [List.filterMap_cons_none hF, List.filter_cons_of_neg (by rw [hp]; simp), hrest]
    | some b =>
      have hp : p (d a) = true := by
        rw [← ha.2, hF]
        rfl
      rw [List.filterMap_cons_some hF, List.map_cons, ha.1 b hF,
        List.filter_cons_of_pos hp, hrest]

theorem query2_entities_left {T1 T2 : Type} (set1 : SparseSet T1) (set2 : SparseSet T2)
    (h1 : set1.WF) (hle : set1.Count ≤ set2.Count) :
    (query2 set1 set2).map (fun r => r.1) =
      set1.denseList.filter (fun e => set2.Has e) := by
  unfold query2
  rw [if_pos hle]
  refine map_fst_filterMap (List.range set1.Count) set1.dense _ _ _ ?_
  intro i hi
  rw [List.mem_range] at hi
  dsimp only
  rw [← SparseSet.get_isSome set2 (set1.dense i)]
  cases set2.Get (set1.dense i) <;> simp

theorem query2_entities_right {T1 T2 : Type} (set1 : SparseSet T1) (set2 : SparseSet T2)
    (h2 : set2.WF) (hgt : set2.Count < set1.Count) :
    (query2 set1 set2).map (fun r => r.1) =
      set2.denseList.filter (fun e => set1.Has e) := by
  unfold query2
  rw [if_neg (Nat.not_le.mpr hgt)]
  refine map_fst_filterMap (List.range set2.Count) set2.dense _ _ _ ?_
  intro i hi
  rw [List.mem_range] at hi
  dsimp only
  rw [← SparseSet.get_isSome set1 (set2.dense i)]
  cases set1.Get (set2.dense i) <;> simp

theorem query3_entities {T1 T2 T3 : Type} (set1 : SparseSet T1) (set2 : SparseSet T2)
    (set3 : SparseSet T3) (h1 : set1.WF) :
    (query3 set1 set2 set3).map (fun r => r.1) =
      set1.denseList.filter (fun e => set2.Has e && set3.Has e) := by
  unfold query3
  refine map_fst_filterMap (List.range set1.Count) set1.dense _ _ _ ?_
  intro i hi
  rw [List.mem_range] at hi
  dsimp only
  rw [← SparseSet.get_isSome set2 (set1.dense i),
    ← SparseSet.get_isSome set3 (set1.dense i)]
  cases set2.Get (set1.dense i) <;> cases set3.Get (set1.dense i) <;> simp

theorem query4_entities {T1 T2 T3 T4 : Type} (set1 : SparseSet T1) (set2 : SparseSet T2)
    (set3 : SparseSet T3) (set4 : SparseSet T4) (h1 : set1.WF) :
    (query4 set1 set2 set3 set4).map (fun r => r.1) =
      set1.denseList.filter (fun e => set2.Has e && set3.Has e && set4.Has e) := by
  unfold query4
  refine map_fst_filterMap (List.range set1.Count) set1.dense _ _ _ ?_
  intro i hi
  rw [List.mem_range] at hi
  dsimp only
  rw [← SparseSet.get_isSome set2 (set1.dense i),
    ← SparseSet.get_isSome set3 (set1.dense i), ← SparseSet.get_isSome set4 (set1.dense i)]
  cases set2.Get (set1.dense i) <;> cases set3.Get (set1.dense i) <;>
    cases set4.Get (set1.dense i) <;> simp

theorem query5_entities {T1 T2 T3 T4 T5 : Type} (set1 : SparseSet T1)
    (set2 : SparseSet T2) (set3 : SparseSet T3) (set4 : SparseSet T4)
    (set5 : SparseSet T5) (h1 : set1.WF) :
    (query5 set1 set2 set3 set4 set5).map (fun r => r.1) =
      set1.denseList.filter
        (fun e => set2.Has e && set3.Has e && set4.Has e && set5.Has e) := by
  unfold query5
  refine map_fst_filterMap (List.range set1.Count) set1.dense _ _ _ ?_
  intro i hi
  rw [List.mem_range] at hi
  dsimp only
  rw [← SparseSet.get_isSome set2 (set1.dense i),
    ← SparseSet.get_isSome set3 (set1.dense i), ← SparseSet.get_isSome set4 (set1.dense i),
    ← SparseSet.get_isSome set5 (set1.dense i)]
  cases set2.Get (set1.dense i) <;> cases set3.Get (set1.dense i) <;>
    cases set4.Get (set1.dense i) <;> cases set5.Get (set1.dense i) <;> simp

theorem query6_entities {T1 T2 T3 T4 T5 T6 : Type} (set1 : SparseSet T1)
    (set2 : SparseSet T2) (set3 : SparseSet T3) (set4 : SparseSet T4)
    (set5 : SparseSet T5) (set6 : SparseSet T6) (h1 : set1.WF) :
    (query6 set1 set2 set3 set4 set5 set6).map (fun r => r.1) =
      set1.denseList.filter
        (fun e => set2.Has e && set3.Has e && set4.Has e && set5.Has e && set6.Has e) := by
  unfold query6
  refine map_fst_filterMap (List.range set1.Count) set1.dense _ _ _ ?_
  intro i hi
  rw [List.mem_range] at hi
  dsimp only
  rw [← SparseSet.get_isSome set2 (set1.dense i),
    ← SparseSet.get_isSome set3 (set1.dense i), ← SparseSet.get_isSome set4 (set1.dense i),
    ← SparseSet.get_isSome set5 (set1.dense i), ← SparseSet.get_isSome set6 (set1.dense i)]
  cases set2.Get (set1.dense i) <;> cases set3.Get (set1.dense i) <;>
    cases set4.Get (set1.dense i) <;> cases set5.Get (set1.dense i) <;>
    cases set6.Get (set1.dense i) <;> simp

/-! ### The entity allocator -/

namespace World

variable {Tr Sp An Ph Co Cs Pl : Type}

/-- The results of successive `CreateEntity()` calls: the counter value while
it is below `MAX_ENTITIES`, the null entity afterwards. -/
theorem createRun_formula (n : Nat) :
    ∀ (w : World Tr Sp An Ph Co Cs Pl),
    w.createRun n = (List.range n).map
      (fun i => if w.nextEntity + i < MAX_ENTITIES then w.nextEntity + i
        else NULL_ENTITY) := by
  induction n with
  | zero =>
    intro w
    rfl
  | succ n ih =>
    intro w
    rw [List.range_succ_eq_map, List.map_cons, List.map_map]
    show (w.CreateEntity).1 :: createRun (w.CreateEntity).2 n = _
    by_cases hc : MAX_ENTITIES ≤ w.nextEntity
    · have h1 : w.CreateEntity = (NULL_ENTITY, w) := by
        unfold CreateEntity
        rw [if_pos hc]
      rw [h1, ih w]
      dsimp only
      rw [if_neg (by omega)]
      congr 1
      apply List.map_congr_left
      intro i hi
      dsimp only [Function.comp]
      rw [if_neg (by omega), if_neg (by omega)]
    · have h1 : w.CreateEntity =
          (w.nextEntity, { w with nextEntity := w.nextEntity + 1 }) := by
        unfold CreateEntity
        rw [if_neg hc]
      rw [h1, ih]
      dsimp only
      rw [Nat.add_zero, if_pos (by omega)]
      congr 1
      apply List.map_congr_left
      intro i hi
      dsimp only [Function.comp]
      have h2 : w.nextEntity + 1 + i = w.nextEntity + (i + 1) := by omega
      rw [h2]

/-- The counter after `n` calls, clamped at `MAX_ENTITIES`. -/
theorem createIter_counter (n : Nat) (w : World Tr Sp An Ph Co Cs Pl)
    (hw : w.nextEntity ≤ MAX_ENTITIES) :
    (w.createIter n).nextEntity = min (w.nextEntity + n) MAX_ENTITIES := by
  induction n with
  | zero =>
    show w.nextEntity = _
    omega
  | succ n ih =>
    show ((w.createIter n).CreateEntity).2.nextEntity = _
    unfold CreateEntity
    by_cases hc : MAX_ENTITIES ≤ (w.createIter n).nextEntity
    · rw [if_pos hc]
      dsimp only
      omega
    · rw [if_neg hc]
      dsimp only
      omega

end World

/-! The demo stores satisfy the storage invariant. -/

theorem demoA_wf : demoA.WF :=
  SparseSet.wf_add (SparseSet.wf_add (@SparseSet.wf_init Nat _) 1 10) 2 20

theorem demoB_wf : demoB.WF :=
  SparseSet.wf_add
    (SparseSet.wf_add (SparseSet.wf_add (@SparseSet.wf_init Nat _) 2 21) 3 31) 4 41

/-! ### The claims -/

/-- C1, counterexample: the null entity 0 is NOT treated as permanently
absent.  `Add` only rejects ids `>= MAX_ENTITIES`, so `Add(0, v)` on a fresh
storage stores a value under key 0: afterwards `Has(0)` is true and the
storage changed (`count` went from 0 to 1). -/
theorem claim1_counterexample :
    ((SparseSet.init Nat).Add NULL_ENTITY 5).Has NULL_ENTITY = true ∧
      ((SparseSet.init Nat).Add NULL_ENTITY 5).count ≠ (SparseSet.init Nat).count := by
  constructor
  · decide
  · decide

/-- C1 (amended): the null entity 0 is an ordinary in-range storage key: on a
fresh storage `Has(0)` is false, `AddX(0, v)` is not dropped (it stores `v`
under key 0, after which `Has(0)` is true and `Get(0)` yields `v`) — but, as
the claim's last part states, it never alters any other entity's membership
or data. -/
theorem claim1_null_entity :
    ∀ (T : Type) [Inhabited T] (s : SparseSet T) (v : T),
    (SparseSet.init T).Has NULL_ENTITY = false ∧
    (s.Add NULL_ENTITY v).Has NULL_ENTITY = true ∧
    (s.Add NULL_ENTITY v).Get NULL_ENTITY = some v ∧
    ∀ e2, e2 ≠ NULL_ENTITY →
      (s.Add NULL_ENTITY v).Has e2 = s.Has e2 ∧
      (s.Add NULL_ENTITY v).Get e2 = s.Get e2 := by
  intro T _ s v
  have h0 : NULL_ENTITY < MAX_ENTITIES := by decide
  exact ⟨rfl, (SparseSet.add_roundtrip s v h0).1, (SparseSet.add_roundtrip s v h0).2,
    fun e2 hne => SparseSet.add_frame s NULL_ENTITY v hne⟩

/-- C2: after any sequence of `Add`/`Remove`/`Clear` operations on a freshly
constructed storage, the sparse-set invariant holds: every valid sparse slot
points below `count` and round-trips through the dense array, every dense slot
below `count` round-trips through the sparse array, and `count ≤ capacity`. -/
theorem claim2_storage_invariant :
    ∀ (T : Type) [Inhabited T] (l : List (SparseSet.Op T)),
    ((SparseSet.init T).runOps l).Inv := by
  intro T _ l
  exact (SparseSet.wf_runOps SparseSet.wf_init l).1

/-- C3: immediately after `Add(e, v)` (for a storable id `e`, i.e. below
`MAX_ENTITIES`), `Has(e)` is true and `Get(e)` yields `v`. -/
theorem claim3_roundtrip :
    ∀ (T : Type) [Inhabited T] (s : SparseSet T) (e : Nat) (v : T),
    e < MAX_ENTITIES →
    (s.Add e v).Has e = true ∧ (s.Add e v).Get e = some v := by
  intro T _ s e v he
  exact SparseSet.add_roundtrip s v he

theorem claim3_witness :
    3 < MAX_ENTITIES ∧
      (((SparseSet.init Nat).Add 3 42).Has 3 = true ∧
        ((SparseSet.init Nat).Add 3 42).Get 3 = some 42) :=
  ⟨by decide, claim3_roundtrip Nat (SparseSet.init Nat) 3 42 (by decide)⟩

/-- C4: every query of arity 3..6 drives `K1`'s dense array unconditionally
(the visited entities are exactly `K1`'s dense list filtered by the remaining
membership probes, with no smallest-set selection), and the visitor fires
exactly once for each entity possessing all kinds and never otherwise. -/
theorem claim4_query_3_to_6 :
    ∀ (T1 T2 T3 T4 T5 T6 : Type) (set1 : SparseSet T1) (set2 : SparseSet T2)
      (set3 : SparseSet T3) (set4 : SparseSet T4) (set5 : SparseSet T5)
      (set6 : SparseSet T6),
    set1.WF →
    ((query3 set1 set2 set3).map (fun r => r.1) =
        set1.denseList.filter (fun e => set2.Has e && set3.Has e) ∧
      (query4 set1 set2 set3 set4).map (fun r => r.1) =
        set1.denseList.filter (fun e => set2.Has e && set3.Has e && set4.Has e) ∧
      (query5 set1 set2 set3 set4 set5).map (fun r => r.1) =
        set1.denseList.filter
          (fun e => set2.Has e && set3.Has e && set4.Has e && set5.Has e) ∧
      (query6 set1 set2 set3 set4 set5 set6).map (fun r => r.1) =
        set1.denseList.filter
          (fun e => set2.Has e && set3.Has e && set4.Has e && set5.Has e && set6.Has e)) ∧
    (∀ e, List.count e ((query3 set1 set2 set3).map (fun r => r.1)) =
      if set1.Has e = true ∧ (set2.Has e && set3.Has e) = true then 1 else 0) ∧
    (∀ e, List.count e ((query4 set1 set2 set3 set4).map (fun r => r.1)) =
      if set1.Has e = true ∧ (set2.Has e && set3.Has e && set4.Has e) = true
        then 1 else 0) ∧
    (∀ e, List.count e ((query5 set1 set2 set3 set4 set5).map (fun r => r.1)) =
      if set1.Has e = true ∧
        (set2.Has e && set3.Has e && set4.Has e && set5.Has e) = true then 1 else 0) ∧
    (∀ e, List.count e ((query6 set1 set2 set3 set4 set5 set6).map (fun r => r.1)) =
      if set1.Has e = true ∧
        (set2.Has e && set3.Has e && set4.Has e && set5.Has e && set6.Has e) = true
        then 1 else 0) := by
  intro T1 T2 T3 T4 T5 T6 set1 set2 set3 set4 set5 set6 h1
  refine ⟨⟨query3_entities set1 set2 set3 h1, query4_entities set1 set2 set3 set4 h1,
    query5_entities set1 set2 set3 set4 set5 h1,
    query6_entities set1 set2 set3 set4 set5 set6 h1⟩, ?_, ?_, ?_, ?_⟩
  · intro e
    rw [query3_entities set1 set2 set3 h1]
    exact SparseSet.count_filter_denseList h1 _ e
  · intro e
    rw [query4_entities set1 set2 set3 set4 h1]
    exact SparseSet.count_filter_denseList h1 _ e
  · intro e
    rw [query5_entities set1 set2 set3 set4 set5 h1]
    exact SparseSet.count_filter_denseList h1 _ e
  · intro e
    rw [query6_entities set1 set2 set3 set4 set5 set6 h1]
    exact SparseSet.count_filter_denseList h1 _ e

theorem claim4_witness :
    demoA.WF ∧
      List.count 2 ((query3 demoA demoB demoC).map (fun r => r.1)) =
        (if demoA.Has 2 = true ∧ (demoB.Has 2 && demoC.Has 2) = true then 1 else 0) :=
  ⟨demoA_wf,
    (claim4_query_3_to_6 Nat Nat Nat Nat Nat Nat demoA demoB demoC demoC demoC demoC
      demoA_wf).2.1 2⟩

/-- C5: the 2-arity query drives the storage with the smaller `Count()` (ties
toward the first-named kind, since the source tests `count1 <= count2`),
iterating its dense array and probing the other storage, and the visitor fires
exactly once for each entity present in both storages and never otherwise. -/
theorem claim5_query2 :
    ∀ (T1 T2 : Type) (set1 : SparseSet T1) (set2 : SparseSet T2),
    set1.WF → set2.WF →
    ((set1.Count ≤ set2.Count →
        (query2 set1 set2).map (fun r => r.1) =
          set1.denseList.filter (fun e => set2.Has e)) ∧
      (set2.Count < set1.Count →
        (query2 set1 set2).map (fun r => r.1) =
          set2.denseList.filter (fun e => set1.Has e)) ∧
      ∀ e, List.count e ((query2 set1 set2).map (fun r => r.1)) =
        if set1.Has e = true ∧ set2.Has e = true then 1 else 0) := by
  intro T1 T2 set1 set2 h1 h2
  refine ⟨fun hle => query2_entities_left set1 set2 h1 hle,
    fun hgt => query2_entities_right set1 set2 h2 hgt, ?_⟩
  intro e
  by_cases hle : set1.Count ≤ set2.Count
  · rw [query2_entities_left set1 set2 h1 hle,
      SparseSet.count_filter_denseList h1 (fun e => set2.Has e) e]
  · rw [query2_entities_right set1 set2 h2 (by omega),
      SparseSet.count_filter_denseList h2 (fun e => set1.Has e) e]
    by_cases ha : set1.Has e = true <;> by_cases hb : set2.Has e = true <;>
      simp [ha, hb]

theorem claim5_witness :
    demoA.WF ∧ demoB.WF ∧
      List.count 2 ((query2 demoA demoB).map (fun r => r.1)) =
        (if demoA.Has 2 = true ∧ demoB.Has 2 = true then 1 else 0) :=
  ⟨demoA_wf, demoB_wf, (claim5_query2 Nat Nat demoA demoB demoA_wf demoB_wf).2.2 2⟩

/-- C6: starting from a counter of 1, the `n`-th `CreateEntity()` call returns
the counter value while it is below `MAX_ENTITIES` and the null entity
afterwards; hence the first `MAX_ENTITIES - 1` calls yield pairwise-distinct
non-null entities and every later call returns the null entity. -/
theorem claim6_create_entity :
    ∀ (Tr Sp An Ph Co Cs Pl : Type) [Inhabited Tr] [Inhabited Sp] [Inhabited An]
      [Inhabited Ph] [Inhabited Co] [Inhabited Cs] [Inhabited Pl],
    (∀ n, (World.init Tr Sp An Ph Co Cs Pl).createRun n =
      (List.range n).map
        (fun i => if 1 + i < MAX_ENTITIES then 1 + i else NULL_ENTITY)) ∧
    ((World.init Tr Sp An Ph Co Cs Pl).createRun (MAX_ENTITIES - 1)).Nodup ∧
    NULL_ENTITY ∉ (World.init Tr Sp An Ph Co Cs Pl).createRun (MAX_ENTITIES - 1) ∧
    ∀ k, (((World.init Tr Sp An Ph Co Cs Pl).createIter
      (MAX_ENTITIES - 1 + k)).CreateEntity).1 = NULL_ENTITY := by
  intro Tr Sp An Ph Co Cs Pl _ _ _ _ _ _ _
  have hM : MAX_ENTITIES = 10000 := rfl
  have hN : NULL_ENTITY = 0 := rfl
  have hform : ∀ n, (World.init Tr Sp An Ph Co Cs Pl).createRun n =
      (List.range n).map
        (fun i => if 1 + i < MAX_ENTITIES then 1 + i else NULL_ENTITY) := by
    intro n
    rw [World.createRun_formula n (World.init Tr Sp An Ph Co Cs Pl)]
    rfl
  have hrw : (World.init Tr Sp An Ph Co Cs Pl).createRun (MAX_ENTITIES - 1) =
      (List.range (MAX_ENTITIES - 1)).map (fun i => i + 1) := by
    rw [hform]
    apply List.map_congr_left
    intro i hi
    rw [List.mem_range] at hi
    rw [if_pos (by omega)]
    omega
  refine ⟨hform, ?_, ?_, ?_⟩
  · rw [hrw]
    refine List.Nodup.map_on ?_ (List.nodup_range _)
    intro x hx y hy hxy
    omega
  · rw [hrw]
    intro hmem
    rw [List.mem_map] at hmem
    obtain ⟨i, -, hi⟩ := hmem
    omega
  · intro k
    have h1 : (World.init Tr Sp An Ph Co Cs Pl).nextEntity = 1 := rfl
    have hctr := World.createIter_counter (MAX_ENTITIES - 1 + k)
      (World.init Tr Sp An Ph Co Cs Pl) (by rw [h1]; omega)
    have hge : MAX_ENTITIES ≤
        ((World.init Tr Sp An Ph Co Cs Pl).createIter
          (MAX_ENTITIES - 1 + k)).nextEntity := by
      rw [hctr, h1]
      omega
    unfold World.CreateEntity
    rw [if_pos hge]

/-- C7, counterexample: out-of-bounds positional access is NOT a defensive
no-op returning an absent result.  On the fresh storage (dense arrays of size
0), `GetEntity(0)`/`GetData(0)` hit `Array::operator[]`'s out-of-range case —
an assertion failure in debug builds, an unchecked out-of-bounds read in
release builds — modelled as `fault`, not any returned element. -/
theorem claim7_counterexample :
    (SparseSet.init Nat).GetEntity 0 = SparseSet.ArrayRead.fault ∧
      (SparseSet.init Nat).GetEntity 0 ≠ SparseSet.ArrayRead.ok NULL_ENTITY ∧
      (SparseSet.init Nat).GetData 0 = SparseSet.ArrayRead.fault ∧
      (SparseSet.init Nat).GetData 0 ≠ SparseSet.ArrayRead.ok 0 := by
  refine ⟨rfl, ?_, rfl, ?_⟩ <;> decide

/-- C7 (amended): the storage operations keyed by entity are defensive
no-ops on an entity at or beyond `MAX_ENTITIES`: `Add`/`Remove` leave the
storage unchanged and `Get`/`Has` answer absent/false.  The positional
accessors `GetEntity(index)`/`GetData(index)`, however, perform no defensive
handling of an out-of-bounds index: the underlying `Array::operator[]` read
faults (debug assertion / undefined behavior) instead of returning an
absent result. -/
theorem claim7_defensive :
    ∀ (T : Type) [Inhabited T] (s : SparseSet T) (e : Nat) (v : T) (i : Nat),
    MAX_ENTITIES ≤ e → s.capacity ≤ i →
    s.Add e v = s ∧ s.Remove e = s ∧ s.Get e = none ∧ s.Has e = false ∧
      s.GetEntity i = SparseSet.ArrayRead.fault ∧ s.GetData i = SparseSet.ArrayRead.fault := by
  intro T _ s e v i hge hcap
  have hh := @SparseSet.has_of_ge T s e hge
  refine ⟨SparseSet.Add_of_ge s e v hge, SparseSet.Remove_of_not_has hh,
    SparseSet.get_of_not_has hh, hh, ?_, ?_⟩
  · unfold SparseSet.GetEntity
    rw [if_neg (by omega)]
  · unfold SparseSet.GetData
    rw [if_neg (by omega)]

theorem claim7_witness :
    MAX_ENTITIES ≤ MAX_ENTITIES ∧ demoA.capacity ≤ 64 ∧
      (demoA.Add MAX_ENTITIES 7 = demoA ∧
        demoA.Remove MAX_ENTITIES = demoA ∧
        demoA.Get MAX_ENTITIES = none ∧
        demoA.Has MAX_ENTITIES = false ∧
        demoA.GetEntity 64 = SparseSet.ArrayRead.fault ∧
        demoA.GetData 64 = SparseSet.ArrayRead.fault) :=
  ⟨Nat.le_refl _, by decide,
    claim7_defensive Nat demoA MAX_ENTITIES 7 64 (Nat.le_refl _) (by decide)⟩

/-- C8: after `Remove(e)` on an invariant-respecting storage, `Has(e)` is
false, and every other previously present entity is still present with its
previous value. -/
theorem claim8_removal_isolation :
    ∀ (T : Type) (s : SparseSet T) (e : Nat), s.WF →
    (s.Remove e).Has e = false ∧
    ∀ e2, e2 ≠ e → s.Has e2 = true →
      (s.Remove e).Has e2 = true ∧ (s.Remove e).Get e2 = s.Get e2 := by
  intro T s e hs
  exact ⟨SparseSet.remove_self hs.2.1 e,
    fun e2 hne hh2 => SparseSet.remove_frame hs e hne hh2⟩

theorem claim8_witness :
    demoA.WF ∧ (demoA.Remove 1).Has 1 = false ∧
      ((demoA.Remove 1).Has 2 = true ∧ (demoA.Remove 1).Get 2 = demoA.Get 2) :=
  ⟨demoA_wf, (claim8_removal_isolation Nat demoA 1 demoA_wf).1,
    (claim8_removal_isolation Nat demoA 1 demoA_wf).2 2 (by decide) (by decide)⟩

/-- C9: `DestroyEntity(e)` removes `e` from every per-kind storage (given
counts within `MAX_ENTITIES`, true of every reachable storage), so every
`HasX(e)` answers false afterwards — also for kinds `e` never had, because
removing an absent entity is a no-op. -/
theorem claim9_destroy_all :
    ∀ (Tr Sp An Ph Co Cs Pl : Type) (w : World Tr Sp An Ph Co Cs Pl) (e : Nat),
    w.transforms.count ≤ MAX_ENTITIES → w.sprites.count ≤ MAX_ENTITIES →
    w.animations.count ≤ MAX_ENTITIES → w.physics.count ≤ MAX_ENTITIES →
    w.colliders.count ≤ MAX_ENTITIES → w.collisionStates.count ≤ MAX_ENTITIES →
    w.players.count ≤ MAX_ENTITIES →
    ((w.DestroyEntity e).HasTransform e = false ∧
      (w.DestroyEntity e).HasSprite e = false ∧
      (w.DestroyEntity e).HasAnimation e = false ∧
      (w.DestroyEntity e).HasPhysics e = false ∧
      (w.DestroyEntity e).HasCollider e = false ∧
      (w.DestroyEntity e).HasCollisionState e = false ∧
      (w.DestroyEntity e).HasPlayer e = false) ∧
    ∀ (T : Type) (s : SparseSet T) (e2 : Nat), s.Has e2 = false → s.Remove e2 = s := by
  intro Tr Sp An Ph Co Cs Pl w e h1 h2 h3 h4 h5 h6 h7
  refine ⟨⟨SparseSet.remove_self h1 e, SparseSet.remove_self h2 e,
    SparseSet.remove_self h3 e, SparseSet.remove_self h4 e, SparseSet.remove_self h5 e,
    SparseSet.remove_self h6 e, SparseSet.remove_self h7 e⟩, ?_⟩
  intro T s e2 h
  exact SparseSet.Remove_of_not_has h

theorem claim9_witness :
    demoWorld.transforms.count ≤ MAX_ENTITIES ∧
      ((demoWorld.DestroyEntity 1).HasTransform 1 = false ∧
        (demoWorld.DestroyEntity 1).HasSprite 1 = false ∧
        (demoWorld.DestroyEntity 1).HasAnimation 1 = false ∧
        (demoWorld.DestroyEntity 1).HasPhysics 1 = false ∧
        (demoWorld.DestroyEntity 1).HasCollider 1 = false ∧
        (demoWorld.DestroyEntity 1).HasCollisionState 1 = false ∧
        (demoWorld.DestroyEntity 1).HasPlayer 1 = false) :=
  ⟨by decide,
    (claim9_destroy_all Nat Nat Nat Nat Nat Nat Nat demoWorld 1 (by decide) (by decide)
      (by decide) (by decide) (by decide) (by decide) (by decide)).1⟩

/-- C10: `Add(e, v)` on a present entity only overwrites the value stored for
`e`: `count`, `capacity`, the whole sparse array and the whole dense array are
unchanged (so no growth and no position changes), `Get(e)` now yields `v`, and
every other entity's lookup is unchanged. -/
theorem claim10_overwrite_frame :
    ∀ (T : Type) [Inhabited T] (s : SparseSet T) (e : Nat) (v : T), s.Has e = true →
    (s.Add e v).count = s.count ∧ (s.Add e v).capacity = s.capacity ∧
    (s.Add e v).sparse = s.sparse ∧ (s.Add e v).dense = s.dense ∧
    (s.Add e v).Get e = some v ∧
    ∀ e2, e2 ≠ e → (s.Add e v).Has e2 = s.Has e2 ∧ (s.Add e v).Get e2 = s.Get e2 := by
  intro T _ s e v hh
  have he : e < MAX_ENTITIES := ((SparseSet.has_iff s e).mp hh).1
  refine ⟨?_, ?_, ?_, ?_, (SparseSet.add_roundtrip s v he).2, ?_⟩
  · rw [SparseSet.Add_overwrite s v hh]
  · rw [SparseSet.Add_overwrite s v hh]
  · rw [SparseSet.Add_overwrite s v hh]
  · rw [SparseSet.Add_overwrite s v hh]
  · intro e2 hne
    exact SparseSet.add_frame s e v hne

theorem claim10_witness :
    demoA.Has 1 = true ∧
      ((demoA.Add 1 99).count = demoA.count ∧
        (demoA.Add 1 99).capacity = demoA.capacity ∧
        (demoA.Add 1 99).sparse = demoA.sparse ∧
        (demoA.Add 1 99).dense = demoA.dense ∧
        (demoA.Add 1 99).Get 1 = some 99 ∧
        ∀ e2, e2 ≠ 1 → (demoA.Add 1 99).Has e2 = demoA.Has e2 ∧
          (demoA.Add 1 99).Get e2 = demoA.Get e2) :=
  ⟨by decide, claim10_overwrite_frame Nat demoA 1 99 (by decide)⟩
